import Mathlib

/-!
Verification of the `accept_visit` stored procedure
(src/unnamed/part_000) and of the admin dashboard screen
(src/app/(tabs)/admin.tsx) of the Night.app repository.

The plpgsql procedure is shallowly embedded as a pure function over an
explicit database state.  The inner `BEGIN ... EXCEPTION WHEN OTHERS`
block of plpgsql establishes a subtransaction: on an exception the
block's changes are rolled back before the handler runs, the handler
logs the error message (`RAISE LOG 'Error in accept_visit: %', SQLERRM`)
and re-raises.  We model this by computing the body over the incoming
state and, on error, returning the original state together with the log
line, mirroring the rollback.
-/

/-- A JSON value as built by `jsonb_build_object` in the procedure:
either a text value or an identifier (uuids are modelled as naturals). -/
inductive JVal where
  | str : String → JVal
  | id : Nat → JVal
deriving DecidableEq, Repr

/-- A row of the `activities` table (`activities%ROWTYPE`):
`id`, unique `name`, point value `points`, and the `is_active` flag. -/
structure Activity where
  id : Nat
  name : String
  points : Int
  is_active : Bool
deriving DecidableEq, Repr

/-- A row of the `qr_codes` table: the opaque `code`, the owning
`user_id`, the `is_active` flag and the expiry timestamp `expires_at`. -/
structure QRCode where
  code : String
  user_id : Nat
  is_active : Bool
  expires_at : Nat
deriving DecidableEq, Repr

/-- A row of the `visits` table: generated `id` and owning `user_id`. -/
structure Visit where
  id : Nat
  user_id : Nat
deriving DecidableEq, Repr

/-- A row of the ledger collaborator's storage, carrying exactly the
arguments of `process_points_transaction`. -/
structure LedgerEntry where
  user_id : Nat
  amount : Int
  kind : String
  note : String
  metadata : List (String × JVal)
deriving DecidableEq, Repr

/-- The database state visible to `accept_visit`: the three tables it
reads or writes, the ledger collaborator's storage, and the generator
for visit identifiers (`RETURNING id INTO v_visit_id`). -/
structure DB where
  activities : List Activity
  qr_codes : List QRCode
  visits : List Visit
  ledger : List LedgerEntry
  next_visit_id : Nat
deriving DecidableEq, Repr

/-- The typed failures `accept_visit` can raise: the three
`RAISE EXCEPTION` sites of the procedure, plus any error surfaced from
the delegated ledger mutator, propagated verbatim. -/
inductive VisitError where
  | Unauthorized
  | InvalidActivity
  | InvalidOrExpiredCode
  | LedgerError : String → VisitError
deriving DecidableEq, Repr

/-- `SQLERRM` for each failure: the message of the raised exception. -/
def VisitError.message : VisitError → String
  | .Unauthorized => "Unauthorized: Admin access required"
  | .InvalidActivity => "Invalid activity type"
  | .InvalidOrExpiredCode => "Invalid or expired QR code"
  | .LedgerError m => m

/-- The ambient execution context of one invocation: the `is_admin()`
truth for the calling principal, the value of `now()`, and the
behaviour of the external ledger collaborator on this invocation
(`none` = it succeeds, `some m` = it raises an error with message `m`). -/
structure Env where
  is_admin : Bool
  now : Nat
  ledger_failure : Option String
deriving DecidableEq, Repr

/-- `SELECT * INTO v_activity FROM activities WHERE name = p_activity_name
AND is_active = true` — `SELECT INTO` binds the first matching row and
sets `FOUND` accordingly. -/
def findActiveActivity (db : DB) (p_activity_name : String) : Option Activity :=
  db.activities.find? (fun a => a.name == p_activity_name && a.is_active)

/-- `SELECT user_id INTO v_user_id FROM qr_codes WHERE code = p_code AND
is_active = true AND expires_at > now()`. -/
def findActiveCode (db : DB) (now : Nat) (p_code : String) : Option QRCode :=
  db.qr_codes.find? (fun q => q.code == p_code && q.is_active && now < q.expires_at)

/-- Modelled from the spec: the external ledger mutator
`process_points_transaction(user, delta, kind, note, metadata)` is not
part of this repository; the spec treats it as an opaque, already-atomic
collaborator that records one PointsTransaction row carrying its
arguments.  `failure` abstracts any error it may raise, which plpgsql
propagates to the caller. -/
def process_points_transaction (failure : Option String) (user_id : Nat)
    (amount : Int) (kind : String) (note : String)
    (metadata : List (String × JVal)) (ledger : List LedgerEntry) :
    Except VisitError (List LedgerEntry) :=
  match failure with
  | some m => .error (.LedgerError m)
  | none => .ok (ledger ++ [⟨user_id, amount, kind, note, metadata⟩])

/-- The body of the inner `BEGIN` block of `accept_visit`: the admin
check, the two validated lookups, the visit insert and the delegated
ledger call, each `RAISE EXCEPTION` becoming an error result. -/
def accept_visit_body (env : Env) (db : DB) (p_code p_activity_name : String) :
    Except VisitError DB :=
  if !env.is_admin then
    .error .Unauthorized
  else
    match findActiveActivity db p_activity_name with
    | none => .error .InvalidActivity
    | some v_activity =>
      match findActiveCode db env.now p_code with
      | none => .error .InvalidOrExpiredCode
      | some qrow =>
        let v_user_id := qrow.user_id
        let v_visit_id := db.next_visit_id
        let db1 : DB :=
          { db with
            visits := db.visits ++ [⟨v_visit_id, v_user_id⟩],
            next_visit_id := db.next_visit_id + 1 }
        match process_points_transaction env.ledger_failure v_user_id
            v_activity.points "earn"
            ("Points earned from " ++ v_activity.name)
            [("qr_code", .str p_code),
             ("visit_id", .id v_visit_id),
             ("activity_name", .str v_activity.name),
             ("activity_id", .id v_activity.id)]
            db1.ledger with
        | .error e => .error e
        | .ok l => .ok { db1 with ledger := l }

instance {ε α : Type} [DecidableEq ε] [DecidableEq α] :
    DecidableEq (Except ε α) := fun x y =>
  match x, y with
  | .ok a, .ok b =>
    if h : a = b then isTrue (by rw [h]) else
      isFalse (fun hc => h (Except.ok.inj hc))
  | .ok _, .error _ => isFalse (fun h => Except.noConfusion h)
  | .error _, .ok _ => isFalse (fun h => Except.noConfusion h)
  | .error a, .error b =>
    if h : a = b then isTrue (by rw [h]) else
      isFalse (fun hc => h (Except.error.inj hc))

/-- The outcome of one call: the returned value or propagated error,
the database state after the call, and the server log lines emitted. -/
structure CallResult where
  result : Except VisitError Unit
  db : DB
  log : List String
deriving DecidableEq, Repr

/-- `accept_visit(p_code, p_activity_name)`: runs the body inside the
exception-handling block.  On an exception the subtransaction is rolled
back (the state reverts to the state at block entry), the handler logs
`'Error in accept_visit: ' || SQLERRM` and re-raises the same error. -/
def accept_visit (env : Env) (db : DB) (p_code p_activity_name : String) :
    CallResult :=
  match accept_visit_body env db p_code p_activity_name with
  | .ok db2 => ⟨.ok (), db2, []⟩
  | .error e => ⟨.error e, db, ["Error in accept_visit: " ++ e.message]⟩

/-!
Embedding of the admin dashboard screen `DashboardScreen`
(src/app/(tabs)/admin.tsx).  Only the state logic is modelled: the
`useState` hooks, `checkUserAdmin`, `loadData` and the mount effect.
A `loadData` closure reads the `isAdmin` constant of the render that
created it, so it is embedded as a function taking the captured
`isAdmin` value explicitly.
-/

/-- The `AdminStats` interface of admin.tsx. -/
structure AdminStats where
  visits_count : Nat
  rewards_used : Nat
  points_awarded : Nat
  capacity_percentage : Nat
deriving DecidableEq, Repr

/-- The `ReviewStats` interface of admin.tsx (`averageMood` is a
numeric aggregate; its exact value is irrelevant to the state logic). -/
structure ReviewStats where
  totalReviews : Nat
  averageMood : Int
  mood1 : Nat
  mood2 : Nat
  mood3 : Nat
  mood4 : Nat
  mood5 : Nat
deriving DecidableEq, Repr

/-- The component state held by the `useState` hooks of
`DashboardScreen`. -/
structure ScreenState where
  stats : Option AdminStats
  reviewStats : Option ReviewStats
  loading : Bool
  error : Option String
  isAdmin : Bool
deriving DecidableEq, Repr

/-- The initial hook values: `useState(null)`, `useState(null)`,
`useState(true)`, `useState(null)`, `useState(false)`. -/
def initialScreenState : ScreenState :=
  ⟨none, none, true, none, false⟩

/-- The backend responses observed during one load:
`checkAdminStatus()` (which may reject), `getAdminStats()` and
`getReviewStats()` (each `.catch`-wrapped to `null` on rejection, so a
failed fetch is already `none` here). -/
structure Backend where
  checkAdminStatus : Except String Bool
  getAdminStats : Option AdminStats
  getReviewStats : Option ReviewStats
deriving Repr

/-- `checkUserAdmin`: sets `isAdmin` from `checkAdminStatus()`, and to
`false` if that call throws. -/
def checkUserAdmin (b : Backend) (s : ScreenState) : ScreenState :=
  match b.checkAdminStatus with
  | .ok status => { s with isAdmin := status }
  | .error _ => { s with isAdmin := false }

/-- `loadData`: clears the error, sets loading, then — reading the
`isAdmin` constant captured by the closure at the render that created
it — either stores the fetched stats (admin branch) or sets both stats
to `null` (non-admin branch); `finally` clears loading. -/
def loadData (captured_isAdmin : Bool) (b : Backend) (s : ScreenState) :
    ScreenState :=
  let s1 := { s with error := none, loading := true }
  let s2 :=
    if captured_isAdmin then
      { s1 with stats := b.getAdminStats, reviewStats := b.getReviewStats }
    else
      { s1 with stats := none, reviewStats := none }
  { s2 with loading := false }

/-- The mount effect `initializeData`: `await checkUserAdmin()` then
`loadData()`.  The effect closure was created during the first render,
so the `loadData` it invokes closed over the first render's `isAdmin`
value (`initialScreenState.isAdmin`), not over the value just written
by `checkUserAdmin`. -/
def initializeData (b : Backend) : ScreenState :=
  let captured := initialScreenState.isAdmin
  let s1 := checkUserAdmin b initialScreenState
  loadData captured b s1

/-- A later trigger of `loadData` (the refresh button or
`onReviewSubmitted`): these invoke the `loadData` closure of the
current render, which captured the current `isAdmin` state. -/
def refreshData (b : Backend) (s : ScreenState) : ScreenState :=
  loadData s.isAdmin b s

/-!  Concrete fixtures used by witnesses and counterexamples.  -/

/-- An active activity named gym worth 10 points. -/
def gymActivity : Activity := ⟨7, "gym", 10, true⟩

/-- An inactive activity named yoga. -/
def yogaActivity : Activity := ⟨8, "yoga", 5, false⟩

/-- A fresh active code owned by user 42, expiring at time 100. -/
def freshCode : QRCode := ⟨"qr-1", 42, true, 100⟩

/-- A database with the two activities and the fresh code, no visits
and an empty ledger. -/
def testDB : DB := ⟨[gymActivity, yogaActivity], [freshCode], [], [], 0⟩

/-- An admin caller at time 50 with a healthy ledger collaborator. -/
def adminEnv : Env := ⟨true, 50, none⟩

/-- An admin caller at time 50 whose ledger collaborator fails. -/
def adminEnvLedgerFail : Env := ⟨true, 50, some "ledger failure"⟩

/-- A non-admin caller at time 50. -/
def nonAdminEnv : Env := ⟨false, 50, none⟩

/-- An admin caller at time 200, after `freshCode` has expired. -/
def lateEnv : Env := ⟨true, 200, none⟩

/-- A backend where the caller is an admin and both stats fetches
succeed. -/
def demoBackend : Backend :=
  ⟨.ok true, some ⟨3, 1, 30, 50⟩, some ⟨4, 3, 0, 1, 1, 1, 1⟩⟩

/-!  Helper lemmas characterising the two branches of `accept_visit`.  -/

/-- The database state a successful call produces: the one inserted
visit row and the one ledger entry recorded by the collaborator, with
the arguments the procedure builds at its call site. -/
def successDB (db : DB) (p_code : String) (act : Activity) (qrow : QRCode) : DB :=
  { db with
    visits := db.visits ++ [⟨db.next_visit_id, qrow.user_id⟩],
    ledger := db.ledger ++ [⟨qrow.user_id, act.points, "earn",
      "Points earned from " ++ act.name,
      [("qr_code", .str p_code),
       ("visit_id", .id db.next_visit_id),
       ("activity_name", .str act.name),
       ("activity_id", .id act.id)]⟩],
    next_visit_id := db.next_visit_id + 1 }

theorem accept_visit_body_success (env : Env) (db : DB) (c a : String)
    (act : Activity) (qrow : QRCode)
    (ha : env.is_admin = true) (hl : env.ledger_failure = none)
    (hact : findActiveActivity db a = some act)
    (hq : findActiveCode db env.now c = some qrow) :
    accept_visit_body env db c a = .ok (successDB db c act qrow) := by
  unfold accept_visit_body successDB
  rw [ha, hact, hq]
  simp [process_points_transaction, hl]

theorem accept_visit_body_success_inv (env : Env) (db : DB) (c a : String)
    (db2 : DB) (h : accept_visit_body env db c a = .ok db2) :
    env.is_admin = true ∧ env.ledger_failure = none ∧
    ∃ act qrow, findActiveActivity db a = some act ∧
      findActiveCode db env.now c = some qrow ∧ db2 = successDB db c act qrow := by
  unfold accept_visit_body at h
  cases hadm : env.is_admin with
  | false => rw [hadm] at h; simp at h
  | true =>
    rw [hadm] at h
    simp only [Bool.not_true, Bool.false_eq_true, if_false] at h
    cases hact : findActiveActivity db a with
    | none => rw [hact] at h; simp at h
    | some act =>
      rw [hact] at h
      cases hq : findActiveCode db env.now c with
      | none => rw [hq] at h; simp at h
      | some qrow =>
        rw [hq] at h
        cases hl : env.ledger_failure with
        | some m => rw [hl] at h; simp [process_points_transaction] at h
        | none =>
          rw [hl] at h
          simp only [process_points_transaction] at h
          refine ⟨rfl, rfl, act, qrow, rfl, rfl, ?_⟩
          cases h
          rfl

theorem accept_visit_ok (env : Env) (db : DB) (c a : String) (db2 : DB)
    (h : accept_visit_body env db c a = .ok db2) :
    accept_visit env db c a = ⟨.ok (), db2, []⟩ := by
  unfold accept_visit
  rw [h]

theorem accept_visit_err (env : Env) (db : DB) (c a : String) (e : VisitError)
    (h : accept_visit_body env db c a = .error e) :
    accept_visit env db c a =
      ⟨.error e, db, ["Error in accept_visit: " ++ e.message]⟩ := by
  unfold accept_visit
  rw [h]

theorem accept_visit_result_ok_inv (env : Env) (db : DB) (c a : String)
    (h : (accept_visit env db c a).result = .ok ()) :
    accept_visit_body env db c a = .ok ((accept_visit env db c a).db) := by
  cases hb : accept_visit_body env db c a with
  | ok db2 =>
    rw [accept_visit_ok env db c a db2 hb]
  | error e =>
    rw [accept_visit_err env db c a e hb] at h
    simp at h

theorem findActiveActivity_ext (db db2 : DB) (a : String)
    (h : db2.activities = db.activities) :
    findActiveActivity db2 a = findActiveActivity db a := by
  unfold findActiveActivity
  rw [h]

theorem findActiveCode_ext (db db2 : DB) (now : Nat) (c : String)
    (h : db2.qr_codes = db.qr_codes) :
    findActiveCode db2 now c = findActiveCode db now c := by
  unfold findActiveCode
  rw [h]

theorem successDB_activities (db : DB) (c : String) (act : Activity)
    (qrow : QRCode) : (successDB db c act qrow).activities = db.activities := rfl

theorem successDB_qr_codes (db : DB) (c : String) (act : Activity)
    (qrow : QRCode) : (successDB db c act qrow).qr_codes = db.qr_codes := rfl

theorem findActiveActivity_none (db : DB) (a : String)
    (h : ∀ x ∈ db.activities, ¬(x.name = a ∧ x.is_active = true)) :
    findActiveActivity db a = none := by
  unfold findActiveActivity
  rw [List.find?_eq_none]
  intro x hx
  simp only [Bool.and_eq_true, beq_iff_eq]
  intro hc
  exact h x hx ⟨hc.1, hc.2⟩

theorem findActiveCode_none (db : DB) (now : Nat) (c : String)
    (h : ∀ q ∈ db.qr_codes,
      ¬(q.code = c ∧ q.is_active = true ∧ now < q.expires_at)) :
    findActiveCode db now c = none := by
  unfold findActiveCode
  rw [List.find?_eq_none]
  intro q hq
  simp only [Bool.and_eq_true, beq_iff_eq, decide_eq_true_eq]
  intro hc
  exact h q hq ⟨hc.1.1, hc.1.2, hc.2⟩

/-!  Claim theorems.  -/

/-- C1: every failing call to `accept_visit` — including a failure
raised inside the delegated ledger mutation — aborts with no partial
effect: the database state after the failed call equals the state
before it, so in particular the visit row inserted earlier in the same
call does not exist afterwards; only the log differs. -/
theorem accept_visit_atomic_on_failure (env : Env) (db : DB) (c a : String)
    (e : VisitError) (h : (accept_visit env db c a).result = .error e) :
    (accept_visit env db c a).db = db ∧
    (accept_visit env db c a).db.visits = db.visits ∧
    (accept_visit env db c a).db.ledger = db.ledger := by
  cases hb : accept_visit_body env db c a with
  | ok db2 =>
    rw [accept_visit_ok env db c a db2 hb] at h
    simp at h
  | error e2 =>
    rw [accept_visit_err env db c a e2 hb]
    exact ⟨rfl, rfl, rfl⟩

/-- Witness for the atomicity theorem: a ledger failure at the
concrete fixture leaves the database exactly as it was. -/
theorem accept_visit_atomic_on_failure_witness :
    (accept_visit adminEnvLedgerFail testDB "qr-1" "gym").result =
      .error (.LedgerError "ledger failure") ∧
    (accept_visit adminEnvLedgerFail testDB "qr-1" "gym").db = testDB :=
  ⟨by decide,
   (accept_visit_atomic_on_failure adminEnvLedgerFail testDB "qr-1" "gym"
      (.LedgerError "ledger failure") (by decide)).1⟩

/-- C3: a call by a non-admin always fails with Unauthorized and
leaves the database unchanged — zero visit rows and zero ledger
entries — whatever the code and activity arguments are. -/
theorem accept_visit_non_admin_unauthorized (env : Env) (db : DB) (c a : String)
    (h : env.is_admin = false) :
    (accept_visit env db c a).result = .error .Unauthorized ∧
    (accept_visit env db c a).db = db := by
  have hb : accept_visit_body env db c a = .error .Unauthorized := by
    unfold accept_visit_body
    rw [h]
    simp
  rw [accept_visit_err env db c a _ hb]
  exact ⟨rfl, rfl⟩

/-- Witness for the authorization gate at a fully valid code and
activity. -/
theorem accept_visit_non_admin_unauthorized_witness :
    nonAdminEnv.is_admin = false ∧
    (accept_visit nonAdminEnv testDB "qr-1" "gym").result =
      .error .Unauthorized ∧
    (accept_visit nonAdminEnv testDB "qr-1" "gym").db = testDB :=
  ⟨rfl,
   (accept_visit_non_admin_unauthorized nonAdminEnv testDB "qr-1" "gym" rfl).1,
   (accept_visit_non_admin_unauthorized nonAdminEnv testDB "qr-1" "gym" rfl).2⟩

/-- C4: an admin call whose activity name matches no active activity
row fails with InvalidActivity and has no effect on the database. -/
theorem accept_visit_invalid_activity (env : Env) (db : DB) (c a : String)
    (hadm : env.is_admin = true)
    (hno : ∀ x ∈ db.activities, ¬(x.name = a ∧ x.is_active = true)) :
    (accept_visit env db c a).result = .error .InvalidActivity ∧
    (accept_visit env db c a).db = db := by
  have hb : accept_visit_body env db c a = .error .InvalidActivity := by
    unfold accept_visit_body
    rw [hadm, findActiveActivity_none db a hno]
    simp
  rw [accept_visit_err env db c a _ hb]
  exact ⟨rfl, rfl⟩

/-- Witness: the inactive yoga activity is rejected even with a valid
code. -/
theorem accept_visit_invalid_activity_witness :
    adminEnv.is_admin = true ∧
    (accept_visit adminEnv testDB "qr-1" "yoga").result =
      .error .InvalidActivity ∧
    (accept_visit adminEnv testDB "qr-1" "yoga").db = testDB :=
  ⟨rfl,
   (accept_visit_invalid_activity adminEnv testDB "qr-1" "yoga" rfl
      (by decide)).1,
   (accept_visit_invalid_activity adminEnv testDB "qr-1" "yoga" rfl
      (by decide)).2⟩

/-- C5: an admin call with a valid active activity but a code that no
qr_codes row matches as active and unexpired fails with
InvalidOrExpiredCode and has no effect on the database. -/
theorem accept_visit_invalid_code (env : Env) (db : DB) (c a : String)
    (hadm : env.is_admin = true)
    (hact : (findActiveActivity db a).isSome = true)
    (hno : ∀ q ∈ db.qr_codes,
      ¬(q.code = c ∧ q.is_active = true ∧ env.now < q.expires_at)) :
    (accept_visit env db c a).result = .error .InvalidOrExpiredCode ∧
    (accept_visit env db c a).db = db := by
  obtain ⟨act, hsome⟩ := Option.isSome_iff_exists.mp hact
  have hb : accept_visit_body env db c a = .error .InvalidOrExpiredCode := by
    unfold accept_visit_body
    rw [hadm, hsome, findActiveCode_none db env.now c hno]
    simp
  rw [accept_visit_err env db c a _ hb]
  exact ⟨rfl, rfl⟩

/-- Witness: at time 200 the code that expired at time 100 is
rejected. -/
theorem accept_visit_invalid_code_witness :
    lateEnv.is_admin = true ∧
    (accept_visit lateEnv testDB "qr-1" "gym").result =
      .error .InvalidOrExpiredCode ∧
    (accept_visit lateEnv testDB "qr-1" "gym").db = testDB :=
  ⟨rfl,
   (accept_visit_invalid_code lateEnv testDB "qr-1" "gym" rfl (by decide)
      (by decide)).1,
   (accept_visit_invalid_code lateEnv testDB "qr-1" "gym" rfl (by decide)
      (by decide)).2⟩

/-- C8: on any failure the procedure emits one log line containing the
original error message and re-raises the very same error, with no
translation of its identity. -/
theorem accept_visit_logs_and_reraises (env : Env) (db : DB) (c a : String)
    (e : VisitError) (h : accept_visit_body env db c a = .error e) :
    (accept_visit env db c a).result = .error e ∧
    (accept_visit env db c a).log =
      ["Error in accept_visit: " ++ e.message] := by
  rw [accept_visit_err env db c a e h]
  exact ⟨rfl, rfl⟩

/-- Witness: the unauthorized failure is logged with its message and
re-raised unchanged. -/
theorem accept_visit_logs_and_reraises_witness :
    accept_visit_body nonAdminEnv testDB "qr-1" "gym" =
      .error .Unauthorized ∧
    (accept_visit nonAdminEnv testDB "qr-1" "gym").result =
      .error .Unauthorized ∧
    (accept_visit nonAdminEnv testDB "qr-1" "gym").log =
      ["Error in accept_visit: Unauthorized: Admin access required"] :=
  ⟨by decide,
   (accept_visit_logs_and_reraises nonAdminEnv testDB "qr-1" "gym"
      .Unauthorized (by decide)).1,
   (accept_visit_logs_and_reraises nonAdminEnv testDB "qr-1" "gym"
      .Unauthorized (by decide)).2⟩

/-- C9: the checks run in the fixed order authorization, activity,
code: a non-admin call fails Unauthorized whatever else is invalid,
and an admin call whose activity lookup fails is reported as
InvalidActivity regardless of the validity of the code. -/
theorem accept_visit_check_order (env : Env) (db : DB) (c a : String) :
    (env.is_admin = false →
      (accept_visit env db c a).result = .error .Unauthorized) ∧
    (env.is_admin = true → findActiveActivity db a = none →
      (accept_visit env db c a).result = .error .InvalidActivity) := by
  constructor
  · intro h
    have hb : accept_visit_body env db c a = .error .Unauthorized := by
      unfold accept_visit_body
      rw [h]
      simp
    rw [accept_visit_err env db c a _ hb]
  · intro hadm hfind
    have hb : accept_visit_body env db c a = .error .InvalidActivity := by
      unfold accept_visit_body
      rw [hadm, hfind]
      simp
    rw [accept_visit_err env db c a _ hb]

/-- Witness: an admin call with both an unknown activity and an
unknown code fails with InvalidActivity, the earliest violated
check. -/
theorem accept_visit_check_order_witness :
    (accept_visit adminEnv testDB "no-such-code" "swim").result =
      .error .InvalidActivity :=
  (accept_visit_check_order adminEnv testDB "no-such-code" "swim").2 rfl
    (by decide)

/-- C2 fails as stated: in a successful concrete run the ledger
entry's metadata payload has field names qr_code, visit_id,
activity_name and activity_id — it has no field named code, so it does
not contain exactly the four fields code, visit_id, activity_name,
activity_id. -/
theorem accept_visit_metadata_no_code_field :
    (accept_visit adminEnv testDB "qr-1" "gym").result = .ok () ∧
    ((accept_visit adminEnv testDB "qr-1" "gym").db.ledger.map
      (fun en => en.metadata.map Prod.fst)) =
      [["qr_code", "visit_id", "activity_name", "activity_id"]] ∧
    ((accept_visit adminEnv testDB "qr-1" "gym").db.ledger.map
      (fun en => en.metadata.lookup "code")) = [none] := by
  decide

/-- C2 amended: on every successful call the ledger entry's metadata
payload contains exactly the four fields qr_code, visit_id,
activity_name and activity_id, where visit_id is the id of the visit
row created by the call and activity_id is the id of the resolved
activity. -/
theorem accept_visit_metadata_propagation (env : Env) (db : DB) (c a : String)
    (h : (accept_visit env db c a).result = .ok ()) :
    ∃ act qrow, findActiveActivity db a = some act ∧
      findActiveCode db env.now c = some qrow ∧
      (accept_visit env db c a).db.visits.getLast? =
        some ⟨db.next_visit_id, qrow.user_id⟩ ∧
      (accept_visit env db c a).db.ledger.getLast? = some
        ⟨qrow.user_id, act.points, "earn",
         "Points earned from " ++ act.name,
         [("qr_code", .str c), ("visit_id", .id db.next_visit_id),
          ("activity_name", .str act.name),
          ("activity_id", .id act.id)]⟩ := by
  have hb := accept_visit_result_ok_inv env db c a h
  obtain ⟨hadm, hl, act, qrow, hact, hq, hdb⟩ :=
    accept_visit_body_success_inv env db c a _ hb
  refine ⟨act, qrow, hact, hq, ?_, ?_⟩
  · rw [hdb]
    simp [successDB]
  · rw [hdb]
    simp [successDB]

/-- Witness for the amended metadata claim at the gym fixture. -/
theorem accept_visit_metadata_propagation_witness :
    (accept_visit adminEnv testDB "qr-1" "gym").result = .ok () ∧
    ∃ act qrow, findActiveActivity testDB "gym" = some act ∧
      findActiveCode testDB adminEnv.now "qr-1" = some qrow ∧
      (accept_visit adminEnv testDB "qr-1" "gym").db.visits.getLast? =
        some ⟨testDB.next_visit_id, qrow.user_id⟩ ∧
      (accept_visit adminEnv testDB "qr-1" "gym").db.ledger.getLast? = some
        ⟨qrow.user_id, act.points, "earn",
         "Points earned from " ++ act.name,
         [("qr_code", .str "qr-1"), ("visit_id", .id testDB.next_visit_id),
          ("activity_name", .str act.name),
          ("activity_id", .id act.id)]⟩ :=
  ⟨by decide,
   accept_visit_metadata_propagation adminEnv testDB "qr-1" "gym" (by decide)⟩

/-- C7: the observable side effects of a call are exactly these: on
success, one new visit row for the user resolved from the code and one
delegated ledger call with that user, the resolved activity's points,
kind earn and the note built by concatenation with the activity name
(the whole resulting state is pinned by `successDB`, so activities and
qr_codes are untouched and nothing else changes); on failure, the
database is unchanged. -/
theorem accept_visit_side_effects (env : Env) (db : DB) (c a : String) :
    ((accept_visit env db c a).result = .ok () →
      ∃ act qrow, findActiveActivity db a = some act ∧
        findActiveCode db env.now c = some qrow ∧
        (accept_visit env db c a).db = successDB db c act qrow) ∧
    ((accept_visit env db c a).result ≠ .ok () →
      (accept_visit env db c a).db = db) := by
  constructor
  · intro h
    have hb := accept_visit_result_ok_inv env db c a h
    obtain ⟨hadm, hl, act, qrow, hact, hq, hdb⟩ :=
      accept_visit_body_success_inv env db c a _ hb
    exact ⟨act, qrow, hact, hq, hdb⟩
  · intro h
    cases hb : accept_visit_body env db c a with
    | ok db2 =>
      exact absurd (by rw [accept_visit_ok env db c a db2 hb]) h
    | error e =>
      rw [accept_visit_err env db c a e hb]

/-- Witness for the side-effects theorem at the gym fixture. -/
theorem accept_visit_side_effects_witness :
    ∃ act qrow, findActiveActivity testDB "gym" = some act ∧
      findActiveCode testDB adminEnv.now "qr-1" = some qrow ∧
      (accept_visit adminEnv testDB "qr-1" "gym").db =
        successDB testDB "qr-1" act qrow :=
  (accept_visit_side_effects adminEnv testDB "qr-1" "gym").1 (by decide)

theorem accept_visit_qr_codes_eq (env : Env) (db : DB) (c a : String) :
    (accept_visit env db c a).db.qr_codes = db.qr_codes := by
  cases hb : accept_visit_body env db c a with
  | ok db2 =>
    rw [accept_visit_ok env db c a db2 hb]
    obtain ⟨_, _, act, qrow, _, _, hdb⟩ :=
      accept_visit_body_success_inv env db c a db2 hb
    rw [hdb]
    rfl
  | error e =>
    rw [accept_visit_err env db c a e hb]

/-- C6: the procedure never mutates the qr_codes table on any path;
after a success the redeemed row is still present with its is_active
flag still true, and an immediate second call with the same code and
activity also succeeds, producing a second visit row and a second
ledger entry of the activity's point amount. -/
theorem accept_visit_code_reusable (env : Env) (db : DB) (c a : String)
    (h : (accept_visit env db c a).result = .ok ()) :
    (∀ env2 : Env, ∀ db2 : DB, ∀ c2 a2 : String,
      (accept_visit env2 db2 c2 a2).db.qr_codes = db2.qr_codes) ∧
    (∃ qrow, findActiveCode db env.now c = some qrow ∧
      qrow ∈ (accept_visit env db c a).db.qr_codes ∧
      qrow.is_active = true) ∧
    (accept_visit env (accept_visit env db c a).db c a).result = .ok () ∧
    (accept_visit env (accept_visit env db c a).db c a).db.visits.length =
      db.visits.length + 2 ∧
    ∃ act, findActiveActivity db a = some act ∧
      (accept_visit env (accept_visit env db c a).db c a).db.ledger.map
          (fun en => en.amount) =
        db.ledger.map (fun en => en.amount) ++ [act.points, act.points] := by
  have hb := accept_visit_result_ok_inv env db c a h
  obtain ⟨hadm, hl, act, qrow, hact, hq, hdb⟩ :=
    accept_visit_body_success_inv env db c a _ hb
  have hact1 : findActiveActivity (accept_visit env db c a).db a = some act := by
    rw [findActiveActivity_ext db _ a (by rw [hdb]; rfl)]
    exact hact
  have hq1 : findActiveCode (accept_visit env db c a).db env.now c = some qrow := by
    rw [findActiveCode_ext db _ env.now c (by rw [hdb]; rfl)]
    exact hq
  have hbody2 := accept_visit_body_success env (accept_visit env db c a).db c a
    act qrow hadm hl hact1 hq1
  have hcall2 := accept_visit_ok env (accept_visit env db c a).db c a _ hbody2
  refine ⟨fun env2 db2 c2 a2 => accept_visit_qr_codes_eq env2 db2 c2 a2,
    ⟨qrow, hq, ?_, ?_⟩, ?_, ?_, act, hact, ?_⟩
  · rw [accept_visit_qr_codes_eq env db c a]
    exact List.mem_of_find?_eq_some hq
  · have := List.find?_some hq
    simp only [Bool.and_eq_true] at this
    exact this.1.2
  · rw [hcall2]
  · rw [hcall2]
    simp only [successDB, hdb, List.length_append, List.length_singleton]
  · rw [hcall2]
    simp only [successDB, hdb, List.map_append, List.map_cons, List.map_nil,
      List.append_assoc, List.singleton_append, List.cons_append,
      List.nil_append]

/-- Witness for code reusability: the second immediate gym call at the
fixture succeeds and the visit count reaches two. -/
theorem accept_visit_code_reusable_witness :
    (accept_visit adminEnv
      (accept_visit adminEnv testDB "qr-1" "gym").db "qr-1" "gym").result =
      .ok () ∧
    (accept_visit adminEnv
      (accept_visit adminEnv testDB "qr-1" "gym").db "qr-1" "gym").db.visits.length =
      testDB.visits.length + 2 :=
  ⟨(accept_visit_code_reusable adminEnv testDB "qr-1" "gym"
      (by decide)).2.2.1,
   (accept_visit_code_reusable adminEnv testDB "qr-1" "gym"
      (by decide)).2.2.2.1⟩

/-- C10: on the dashboard's initial mount the load that follows the
admin-status check reads the isAdmin value captured at the first
render, which is false, so both the admin statistics and the review
statistics are null after the first load for every backend —
administrators included — while a later trigger of loadData (the
refresh action or a submitted review) does load them for an admin. -/
theorem dashboard_initial_load_null (b : Backend) :
    (initializeData b).stats = none ∧
    (initializeData b).reviewStats = none ∧
    (b.checkAdminStatus = .ok true →
      (refreshData b (initializeData b)).stats = b.getAdminStats ∧
      (refreshData b (initializeData b)).reviewStats = b.getReviewStats) := by
  refine ⟨?_, ?_, ?_⟩
  · cases hc : b.checkAdminStatus with
    | ok st =>
      simp [initializeData, checkUserAdmin, loadData, initialScreenState, hc]
    | error m =>
      simp [initializeData, checkUserAdmin, loadData, initialScreenState, hc]
  · cases hc : b.checkAdminStatus with
    | ok st =>
      simp [initializeData, checkUserAdmin, loadData, initialScreenState, hc]
    | error m =>
      simp [initializeData, checkUserAdmin, loadData, initialScreenState, hc]
  · intro hc
    constructor
    · simp [initializeData, checkUserAdmin, loadData, refreshData,
        initialScreenState, hc]
    · simp [initializeData, checkUserAdmin, loadData, refreshData,
        initialScreenState, hc]

/-- Witness: with an admin backend the mount leaves both stats null,
and the refresh then loads the admin statistics. -/
theorem dashboard_initial_load_null_witness :
    demoBackend.checkAdminStatus = .ok true ∧
    (initializeData demoBackend).stats = none ∧
    (refreshData demoBackend (initializeData demoBackend)).stats =
      demoBackend.getAdminStats :=
  ⟨rfl,
   (dashboard_initial_load_null demoBackend).1,
   ((dashboard_initial_load_null demoBackend).2.2 rfl).1⟩
